import Mathlib

/-!
Shallow embedding of the StitchFlow tailoring-shop core (types.ts and the
application component file): the domain model, the payment derivation done in
`OrderForm`'s submit handler, the search filters `filteredCustomers` and
`filteredOrders`, the creation/update handlers `handleAddOrder`,
`handleUpdateStatus`, `handleSendMessage`, the photo-append expression used by
`OrderCard` and `CustomerOrderView`, the measurement-grid rendering of those
two views, and `loginAsCustomer`.

JavaScript strings are modelled as Lean `String`; `String.prototype.includes`
and `String.prototype.toLowerCase` (ASCII range, as exercised by the app) are
modelled by `jsIncludes` and `jsToLower` below.  JavaScript numbers used by
the payment arithmetic are modelled as `Int` (the app only ever subtracts and
compares them).  Store-generated identifiers and timestamps
(`Math.random().toString(36).substr(2, 9)`, `new Date().toISOString()`) are
passed in as explicit parameters.
-/

namespace StitchFlow

/-- Enumeration `OrderStatus` from types.ts. -/
inductive OrderStatus
  | PENDING
  | STITCHING
  | READY
  | DELIVERED
deriving DecidableEq

/-- Enumeration `PaymentStatus` from types.ts. -/
inductive PaymentStatus
  | PAID
  | UNPAID
deriving DecidableEq

/-- Enumeration `UserRole` from types.ts. -/
inductive UserRole
  | TAILOR
  | CUSTOMER
deriving DecidableEq

/-- Structure `PaymentDetails` from types.ts; the numeric fields are modelled as `Int`. -/
structure PaymentDetails where
  stitchingPrice : Int
  advancePaid : Int
  remainingAmount : Int
  status : PaymentStatus
deriving DecidableEq

/-- Structure `Measurements` from types.ts, fields in the interface's declaration
order (which is also the insertion order of the object built in
`OrderForm`, hence the `Object.entries` iteration order). -/
structure Measurements where
  suitType : String
  shoulder : String
  chest : String
  waist : String
  neck : String
  armLength : String
  wrist : String
  shirtLength : String
  shalwarLength : String
  paincha : String
  damain : String
  numPockets : Nat
  numSuits : Nat
  clothLengthGiven : String
  measurementDate : String
  deliveryDate : String
  specialNotes : String
deriving DecidableEq

/-- Structure `Message` from types.ts. -/
structure Message where
  id : String
  urdu : String
  english : String
  timestamp : String
deriving DecidableEq

/-- Structure `Order` from types.ts (`photos?: string[]` is an optional field). -/
structure Order where
  id : String
  customerId : String
  measurements : Measurements
  status : OrderStatus
  payment : PaymentDetails
  messages : List Message
  photos : Option (List String)
deriving DecidableEq

/-- Structure `Customer` from types.ts (`profilePicture?: string` is optional). -/
structure Customer where
  id : String
  name : String
  fatherName : String
  address : String
  cnic : String
  mobileNumber : String
  profilePicture : Option String
deriving DecidableEq

/-- The `currentUser` record of `AppState` from types.ts. -/
structure CurrentUser where
  role : UserRole
  id : Option String
deriving DecidableEq

/-- Does `pat` occur as a prefix of `hay`? (helper for `jsIncludes`). -/
def hasPref : List Char → List Char → Bool
  | [], _ => true
  | _ :: _, [] => false
  | p :: ps, h :: hs => p == h && hasPref ps hs

/-- Does `pat` occur as a contiguous substring of the second list? -/
def containsSubL (pat : List Char) : List Char → Bool
  | [] => pat.isEmpty
  | h :: t => hasPref pat (h :: t) || containsSubL pat t

/-- Model of JavaScript `hay.includes(pat)`. -/
def jsIncludes (hay pat : String) : Bool := containsSubL pat.data hay.data

/-- Model of JavaScript `s.toLowerCase()` on the ASCII range. -/
def jsToLower (s : String) : String := String.mk (s.data.map Char.toLower)

/-- The payment derivation performed in `OrderForm`'s submit handler:
`due = pay.stitchingPrice - pay.advancePaid` and
`{ ...pay, remainingAmount: due, status: due <= 0 ? PAID : UNPAID }`. -/
def derivePayment (stitchingPrice advancePaid : Int) : PaymentDetails :=
  let due := stitchingPrice - advancePaid
  { stitchingPrice := stitchingPrice
    advancePaid := advancePaid
    remainingAmount := due
    status := if due ≤ 0 then PaymentStatus.PAID else PaymentStatus.UNPAID }

/-- The per-customer predicate of `filteredCustomers`:
`c.name.toLowerCase().includes(low) || c.mobileNumber.includes(searchTerm) ||
c.fatherName.toLowerCase().includes(low)` where `low = searchTerm.toLowerCase()`. -/
def customerMatches (searchTerm : String) (c : Customer) : Bool :=
  let low := jsToLower searchTerm
  jsIncludes (jsToLower c.name) low
    || jsIncludes c.mobileNumber searchTerm
    || jsIncludes (jsToLower c.fatherName) low

/-- Filter `filteredCustomers` from `TailorDashboard`: an empty search term returns
the collection unchanged, otherwise the list is filtered by `customerMatches`. -/
def filteredCustomers (customers : List Customer) (searchTerm : String) : List Customer :=
  if searchTerm.isEmpty then customers
  else customers.filter (customerMatches searchTerm)

/-- The per-order predicate of `filteredOrders`: the linked customer is looked
up with `state.customers.find(c => c.id === o.customerId)` and the order is
kept when `o.id.toLowerCase().includes(low) ||
customer?.name.toLowerCase().includes(low)`; when the lookup fails the
optional-chained right disjunct is `undefined`, i.e. falsy. -/
def orderMatches (customers : List Customer) (searchTerm : String) (o : Order) : Bool :=
  let low := jsToLower searchTerm
  match customers.find? (fun c => c.id == o.customerId) with
  | some customer => jsIncludes (jsToLower o.id) low || jsIncludes (jsToLower customer.name) low
  | none => jsIncludes (jsToLower o.id) low

/-- Filter `filteredOrders` from `TailorDashboard`. -/
def filteredOrders (orders : List Order) (customers : List Customer) (searchTerm : String) :
    List Order :=
  if searchTerm.isEmpty then orders
  else orders.filter (orderMatches customers searchTerm)

/-- The document `handleAddOrder` writes to the store: the supplied
`{customerId, measurements, payment}` spread together with the computed
defaults (the store assigns the document id afterwards). -/
structure NewOrderDoc where
  customerId : String
  measurements : Measurements
  payment : PaymentDetails
  status : OrderStatus
  messages : List Message
  photos : List String
  createdAt : String
deriving DecidableEq

/-- Handler `handleAddOrder` from the `App` component: spreads the supplied order data
and sets `status: OrderStatus.PENDING`, `messages: []`, `photos: []`,
`createdAt: new Date().toISOString()` (the timestamp is the `now` parameter). -/
def handleAddOrder (customerId : String) (measurements : Measurements)
    (payment : PaymentDetails) (now : String) : NewOrderDoc :=
  { customerId := customerId
    measurements := measurements
    payment := payment
    status := OrderStatus.PENDING
    messages := []
    photos := []
    createdAt := now }

/-- Handler `handleUpdateStatus` from the `App` component: `updateDoc` patches the
`status` field of the order document with the given id, leaving every other
field of that document and every other document untouched. -/
def handleUpdateStatus (orders : List Order) (id : String) (status : OrderStatus) :
    List Order :=
  orders.map (fun o => if o.id == id then { o with status := status } else o)

/-- The message object built in `handleSendMessage` (its random id and
timestamp are the explicit `freshId`/`now` parameters). -/
def mkMessage (freshId urdu english now : String) : Message :=
  { id := freshId, urdu := urdu, english := english, timestamp := now }

/-- Handler `handleSendMessage` from the `App` component: look the order up with
`orders.find(o => o.id === id)`; if absent, return with no update; otherwise
patch the matching document's `messages` with `[newMessage, ...order.messages]`. -/
def handleSendMessage (orders : List Order) (id urdu english freshId now : String) :
    List Order :=
  match orders.find? (fun o => o.id == id) with
  | none => orders
  | some order =>
      orders.map (fun o =>
        if o.id == id then
          { o with messages := mkMessage freshId urdu english now :: order.messages }
        else o)

/-- The photo-append expression used identically by `OrderCard` and
`CustomerOrderView`: `[...(order.photos || []), newPhoto]`. -/
def appendPhoto (photos : Option (List String)) (newPhoto : String) : List String :=
  photos.getD [] ++ [newPhoto]

/-- Model of `Object.entries(order.measurements)` in the interface's declaration order,
with the numeric fields rendered the way JavaScript stringifies them. -/
def measurementEntries (m : Measurements) : List (String × String) :=
  [("suitType", m.suitType), ("shoulder", m.shoulder), ("chest", m.chest),
   ("waist", m.waist), ("neck", m.neck), ("armLength", m.armLength),
   ("wrist", m.wrist), ("shirtLength", m.shirtLength),
   ("shalwarLength", m.shalwarLength), ("paincha", m.paincha),
   ("damain", m.damain), ("numPockets", toString m.numPockets),
   ("numSuits", toString m.numSuits), ("clothLengthGiven", m.clothLengthGiven),
   ("measurementDate", m.measurementDate), ("deliveryDate", m.deliveryDate),
   ("specialNotes", m.specialNotes)]

/-- The exclusion list hard-coded in `OrderCard`'s measurement grid:
`['specialNotes', 'measurementDate', 'deliveryDate', 'suitType']`. -/
def orderCardExcludedKeys : List String :=
  ["specialNotes", "measurementDate", "deliveryDate", "suitType"]

/-- The exclusion list hard-coded in `CustomerOrderView`'s measure tab:
`['specialNotes', 'measurementDate', 'deliveryDate', 'suitType']`. -/
def customerOrderViewExcludedKeys : List String :=
  ["specialNotes", "measurementDate", "deliveryDate", "suitType"]

/-- The entries `OrderCard` renders as measurement-grid cells (the entries
whose key is not in its exclusion list; excluded keys render `null`). -/
def orderCardGridEntries (m : Measurements) : List (String × String) :=
  (measurementEntries m).filter (fun kv => !(orderCardExcludedKeys.contains kv.1))

/-- The entries `CustomerOrderView` renders as measurement-grid cells. -/
def customerOrderViewGridEntries (m : Measurements) : List (String × String) :=
  (measurementEntries m).filter (fun kv => !(customerOrderViewExcludedKeys.contains kv.1))

/-- The ten body-measurement field names of the spec's data model (also the
field list iterated by `OrderForm`'s measurement inputs). -/
def bodyMeasurementKeys : List String :=
  ["shoulder", "chest", "waist", "neck", "armLength", "wrist", "shirtLength",
   "shalwarLength", "paincha", "damain"]

/-- Handler `loginAsCustomer` from the `App` component:
`customers.find(c => c.mobileNumber === mobileNumber)`; on a hit the current
user becomes `{ role: CUSTOMER, id: customer.id }` and `true` is returned,
otherwise `false` is returned and the current user is untouched.  The returned
pair is (returned boolean, current user after the call). -/
def loginAsCustomer (customers : List Customer) (mobileNumber : String)
    (currentUser : Option CurrentUser) : Bool × Option CurrentUser :=
  match customers.find? (fun c => c.mobileNumber == mobileNumber) with
  | some customer => (true, some { role := UserRole.CUSTOMER, id := some customer.id })
  | none => (false, currentUser)

/-- A concrete measurements record (the values of `OrderForm`'s quick-fill). -/
def demoMeasurements : Measurements :=
  { suitType := "Shalwar Kameez", shoulder := "18", chest := "42", waist := "38",
    neck := "15.5", armLength := "24", wrist := "9.5", shirtLength := "39",
    shalwarLength := "40", paincha := "8.5", damain := "22", numPockets := 2,
    numSuits := 1, clothLengthGiven := "", measurementDate := "2026-10-01",
    deliveryDate := "2026-10-15", specialNotes := "" }

/-- A concrete customer, as in the spec's filter examples. -/
def demoCustomer : Customer :=
  { id := "c1", name := "Ali Khan", fatherName := "Akbar", address := "Lahore",
    cnic := "", mobileNumber := "03001234567", profilePicture := none }

/-- A concrete order attached to `demoCustomer`. -/
def demoOrder : Order :=
  { id := "ORD42", customerId := "c1", measurements := demoMeasurements,
    status := OrderStatus.PENDING, payment := derivePayment 1500 500,
    messages := [], photos := some [] }

/-- A concrete order whose `customerId` resolves to no customer. -/
def orphanOrder : Order :=
  { id := "GHOST7", customerId := "missing", measurements := demoMeasurements,
    status := OrderStatus.STITCHING, payment := derivePayment 1500 2000,
    messages := [], photos := none }

/-- Helper: `find?` commutes with a `map` whose function preserves the
predicate's value. -/
theorem find?_map_of_pred_eq {α : Type} (f : α → α) (p : α → Bool)
    (hp : ∀ x, p (f x) = p x) :
    ∀ l : List α, (l.map f).find? p = (l.find? p).map f := by
  intro l
  induction l with
  | nil => rfl
  | cons x t ih =>
    by_cases hx : p x = true
    · simp [List.find?_cons, hp x, hx]
    · have hx' : p x = false := by simpa using hx
      simp [List.find?_cons, hp x, hx', ih]

/-- Claim C1: the payment derivation returns
`remainingAmount = stitchingPrice - advancePaid` with no clamping, and
`status = PAID` exactly when the remaining amount is `≤ 0`, else `UNPAID`;
in particular `derivePayment 1500 2000` yields `remainingAmount = -500` with
status `PAID`. -/
theorem derivePayment_spec (stitchingPrice advancePaid : Int) :
    (derivePayment stitchingPrice advancePaid).remainingAmount
        = stitchingPrice - advancePaid
    ∧ ((derivePayment stitchingPrice advancePaid).status = PaymentStatus.PAID
        ↔ stitchingPrice - advancePaid ≤ 0)
    ∧ ((derivePayment stitchingPrice advancePaid).status = PaymentStatus.UNPAID
        ↔ ¬ stitchingPrice - advancePaid ≤ 0)
    ∧ derivePayment 1500 2000
        = { stitchingPrice := 1500, advancePaid := 2000, remainingAmount := -500,
            status := PaymentStatus.PAID } := by
  refine ⟨rfl, ?_, ?_, by decide⟩ <;>
    by_cases hle : stitchingPrice - advancePaid ≤ 0 <;>
      simp [derivePayment, hle]

/-- Claim C5: every order built by the creation path has
`status = PENDING`, `messages = []`, `photos = []`, and `createdAt` set to the
creation-time timestamp, with the supplied customer id, measurements and
payment stored unmodified. -/
theorem handleAddOrder_defaults (customerId : String) (m : Measurements)
    (p : PaymentDetails) (now : String) :
    (handleAddOrder customerId m p now).status = OrderStatus.PENDING
    ∧ (handleAddOrder customerId m p now).messages = []
    ∧ (handleAddOrder customerId m p now).photos = []
    ∧ (handleAddOrder customerId m p now).createdAt = now
    ∧ (handleAddOrder customerId m p now).measurements = m
    ∧ (handleAddOrder customerId m p now).payment = p
    ∧ (handleAddOrder customerId m p now).customerId = customerId :=
  ⟨rfl, rfl, rfl, rfl, rfl, rfl, rfl⟩

/-- Claim C7: the photo append puts the new reference at the end of the
existing sequence, an absent (`none`) photos field is treated as the empty
sequence so the first append yields `[P1]`, and appending `P1` then `P2`
yields `[P1, P2]` (chronological, oldest first). -/
theorem appendPhoto_spec :
    (∀ (photos : List String) (p : String), appendPhoto (some photos) p = photos ++ [p])
    ∧ (∀ p : String, appendPhoto none p = [p])
    ∧ (∀ (photos : Option (List String)) (p1 p2 : String),
        appendPhoto (some (appendPhoto photos p1)) p2 = photos.getD [] ++ [p1, p2]) := by
  refine ⟨fun photos p => rfl, fun p => rfl, fun photos p1 p2 => ?_⟩
  simp [appendPhoto]

/-- Claim C10: when the message-send handler is invoked with an order id that
matches no order, it performs no update at all: the orders collection (hence
every order and every message sequence in it) is returned unchanged. -/
theorem handleSendMessage_missing_noop (orders : List Order)
    (id urdu english freshId now : String)
    (h : orders.find? (fun o => o.id == id) = none) :
    handleSendMessage orders id urdu english freshId now = orders := by
  unfold handleSendMessage
  rw [h]

/-- Witness for C10: sending to the absent id "nope" leaves the demo
collection untouched. -/
theorem handleSendMessage_missing_noop_witness :
    handleSendMessage [demoOrder] "nope" "u" "e" "m" "t" = [demoOrder] :=
  handleSendMessage_missing_noop [demoOrder] "nope" "u" "e" "m" "t" (by decide)

/-- Helper: when the lookup finds `ord`, the message-send handler leaves the
collection with the matched order's messages equal to the freshly built
message prepended to `ord`'s previous messages. -/
theorem handleSendMessage_find?_eq (orders : List Order)
    (id urdu english freshId now : String) (ord : Order)
    (h : orders.find? (fun o => o.id == id) = some ord) :
    (handleSendMessage orders id urdu english freshId now).find? (fun o => o.id == id)
      = some { ord with messages := mkMessage freshId urdu english now :: ord.messages } := by
  have hid' := List.find?_some h
  have hid : (ord.id == id) = true := hid'
  have hp : ∀ o : Order,
      (((if o.id == id then
            { o with messages := mkMessage freshId urdu english now :: ord.messages }
          else o) : Order).id == id) = (o.id == id) := by
    intro o
    by_cases ho : (o.id == id) = true
    · rw [if_pos ho]
    · rw [if_neg ho]
  unfold handleSendMessage
  rw [h]
  show (orders.map (fun o =>
      if o.id == id then
        { o with messages := mkMessage freshId urdu english now :: ord.messages }
      else o)).find? (fun o => o.id == id) = _
  rw [find?_map_of_pred_eq _ _ hp orders, h]
  have hEq : ord.id = id := by simpa using hid
  simp [hEq]

/-- Claim C6: the message append prepends exactly one new message carrying the
given texts, fresh id and timestamp, so appending M1 then M2 yields the
sequence `[M2, M1]` (newest first) in the persisted representation, the
previously present messages are kept unchanged behind it, and orders whose id
does not match are untouched. -/
theorem handleSendMessage_spec (orders : List Order)
    (id u1 e1 f1 t1 u2 e2 f2 t2 : String) (ord : Order)
    (h : orders.find? (fun o => o.id == id) = some ord) :
    ((handleSendMessage orders id u1 e1 f1 t1).find? (fun o => o.id == id)
        = some { ord with messages := mkMessage f1 u1 e1 t1 :: ord.messages })
    ∧ ((handleSendMessage (handleSendMessage orders id u1 e1 f1 t1) id u2 e2 f2 t2).find?
          (fun o => o.id == id)
        = some { ord with
            messages := mkMessage f2 u2 e2 t2 :: mkMessage f1 u1 e1 t1 :: ord.messages })
    ∧ (∀ o ∈ orders, (o.id == id) = false →
        o ∈ handleSendMessage orders id u1 e1 f1 t1) := by
  have h1 := handleSendMessage_find?_eq orders id u1 e1 f1 t1 ord h
  refine ⟨h1, ?_, ?_⟩
  · exact handleSendMessage_find?_eq _ id u2 e2 f2 t2 _ h1
  · intro o ho hne
    unfold handleSendMessage
    rw [h]
    show o ∈ orders.map (fun o =>
      if o.id == id then
        { o with messages := mkMessage f1 u1 e1 t1 :: ord.messages }
      else o)
    have hfix : (if o.id == id then
        { o with messages := mkMessage f1 u1 e1 t1 :: ord.messages }
      else o) = o := by
      rw [if_neg]
      simp [hne]
    exact hfix ▸ List.mem_map_of_mem
      (fun o : Order =>
        if o.id == id then
          { o with messages := mkMessage f1 u1 e1 t1 :: ord.messages }
        else o) ho

/-- Witness for C6: sending one message to the demo order prepends it. -/
theorem handleSendMessage_spec_witness :
    (handleSendMessage [demoOrder] "ORD42" "u1" "e1" "m1" "t1").find?
        (fun o => o.id == "ORD42")
      = some { demoOrder with
          messages := mkMessage "m1" "u1" "e1" "t1" :: demoOrder.messages } :=
  (handleSendMessage_spec [demoOrder] "ORD42" "u1" "e1" "m1" "t1" "u2" "e2" "m2" "t2"
    demoOrder (by decide)).1

/-- Claim C8: the status transition always succeeds for every current status
and every target status: the patched order has exactly the target status,
every other field of it is unchanged, it is present in the updated
collection, and orders with a different id pass through untouched. -/
theorem handleUpdateStatus_spec (orders : List Order) (id : String)
    (target : OrderStatus) (o : Order) (ho : o ∈ orders) (hid : o.id = id) :
    ({ o with status := target } ∈ handleUpdateStatus orders id target)
    ∧ ({ o with status := target } : Order).status = target
    ∧ ({ o with status := target } : Order).id = o.id
    ∧ ({ o with status := target } : Order).customerId = o.customerId
    ∧ ({ o with status := target } : Order).measurements = o.measurements
    ∧ ({ o with status := target } : Order).payment = o.payment
    ∧ ({ o with status := target } : Order).messages = o.messages
    ∧ ({ o with status := target } : Order).photos = o.photos
    ∧ (∀ o' ∈ orders, (o'.id == id) = false →
        o' ∈ handleUpdateStatus orders id target) := by
  refine ⟨?_, rfl, rfl, rfl, rfl, rfl, rfl, rfl, ?_⟩
  · have hbeq : (o.id == id) = true := by simp [hid]
    have hmem := List.mem_map_of_mem
      (fun x : Order => if x.id == id then { x with status := target } else x) ho
    simpa [handleUpdateStatus, hbeq] using hmem
  · intro o' ho' hne
    have hmem := List.mem_map_of_mem
      (fun x : Order => if x.id == id then { x with status := target } else x) ho'
    simpa [handleUpdateStatus, hne] using hmem

/-- Witness for C8: moving the demo order straight from PENDING to DELIVERED
succeeds and the patched order is in the updated collection. -/
theorem handleUpdateStatus_spec_witness :
    ({ demoOrder with status := OrderStatus.DELIVERED }
      ∈ handleUpdateStatus [demoOrder] "ORD42" OrderStatus.DELIVERED) :=
  (handleUpdateStatus_spec [demoOrder] "ORD42" OrderStatus.DELIVERED demoOrder
    (by decide) (by decide)).1

/-- Claim C2: for a non-empty term, a customer is kept by `filteredCustomers`
exactly when its name contains the term case-insensitively, or its mobile
number contains the term raw (case-sensitively), or its father name contains
the term case-insensitively; the match reads no field beyond those three, and
zero matches yields the empty sequence. -/
theorem filteredCustomers_spec (customers : List Customer) (searchTerm : String)
    (h : searchTerm.isEmpty = false) :
    (∀ c : Customer,
      c ∈ filteredCustomers customers searchTerm ↔
        c ∈ customers ∧
          (jsIncludes (jsToLower c.name) (jsToLower searchTerm) = true
            ∨ jsIncludes c.mobileNumber searchTerm = true
            ∨ jsIncludes (jsToLower c.fatherName) (jsToLower searchTerm) = true))
    ∧ (∀ c c' : Customer, c.name = c'.name → c.mobileNumber = c'.mobileNumber →
        c.fatherName = c'.fatherName →
        customerMatches searchTerm c = customerMatches searchTerm c')
    ∧ ((∀ c ∈ customers, customerMatches searchTerm c = false) →
        filteredCustomers customers searchTerm = []) := by
  have hfc : filteredCustomers customers searchTerm
      = customers.filter (customerMatches searchTerm) := by
    unfold filteredCustomers
    rw [if_neg]
    simp [h]
  refine ⟨?_, ?_, ?_⟩
  · intro c
    rw [hfc, List.mem_filter]
    unfold customerMatches
    simp [Bool.or_eq_true, or_assoc]
  · intro c c' hn hm hf
    unfold customerMatches
    rw [hn, hm, hf]
  · intro hall
    rw [hfc]
    rw [List.filter_eq_nil_iff]
    intro c hc
    simp [hall c hc]

/-- Witness for C2: "ali" matches the demo customer's name
case-insensitively, so the customer is kept. -/
theorem filteredCustomers_spec_witness :
    demoCustomer ∈ filteredCustomers [demoCustomer] "ali" :=
  ((filteredCustomers_spec [demoCustomer] "ali" (by decide)).1 demoCustomer).mpr
    (by decide)

/-- Claim C3: `filteredOrders` is a total function (modelled as such), and an
order whose `customerId` resolves to no customer is kept exactly when the
order's own id contains the term case-insensitively; the unresolved reference
does not halt the pass. -/
theorem filteredOrders_missingCustomer (orders : List Order)
    (customers : List Customer) (searchTerm : String) (o : Order)
    (h : searchTerm.isEmpty = false)
    (hmiss : customers.find? (fun c => c.id == o.customerId) = none) :
    o ∈ filteredOrders orders customers searchTerm ↔
      o ∈ orders ∧ jsIncludes (jsToLower o.id) (jsToLower searchTerm) = true := by
  have hfo : filteredOrders orders customers searchTerm
      = orders.filter (orderMatches customers searchTerm) := by
    unfold filteredOrders
    rw [if_neg]
    simp [h]
  rw [hfo, List.mem_filter]
  unfold orderMatches
  rw [hmiss]

/-- Witness for C3: the orphan order's `customerId` resolves to no customer in
the demo customer list, yet "ghost" still matches its own id. -/
theorem filteredOrders_missingCustomer_witness :
    orphanOrder ∈ filteredOrders [orphanOrder] [demoCustomer] "ghost" :=
  (filteredOrders_missingCustomer [orphanOrder] [demoCustomer] "ghost" orphanOrder
    (by decide) (by decide)).mpr (by decide)

/-- Claim C9: `loginAsCustomer` returns `true` exactly when some customer's
mobile number equals the supplied text; on the hit the current user becomes
role CUSTOMER with the matched customer's id, and on a miss it returns `false`
(a boolean failure, not an exception) leaving the current user unchanged. -/
theorem loginAsCustomer_spec (customers : List Customer) (mobileNumber : String)
    (currentUser : Option CurrentUser) :
    ((loginAsCustomer customers mobileNumber currentUser).1 = true ↔
      ∃ c ∈ customers, c.mobileNumber = mobileNumber)
    ∧ (∀ c : Customer,
        customers.find? (fun x => x.mobileNumber == mobileNumber) = some c →
        loginAsCustomer customers mobileNumber currentUser
          = (true, some { role := UserRole.CUSTOMER, id := some c.id }))
    ∧ (customers.find? (fun x => x.mobileNumber == mobileNumber) = none →
        loginAsCustomer customers mobileNumber currentUser = (false, currentUser)) := by
  cases hfind : customers.find? (fun c => c.mobileNumber == mobileNumber) with
  | some c =>
    have hc := List.mem_of_find?_eq_some hfind
    have hm' := List.find?_some hfind
    have hm : c.mobileNumber = mobileNumber := by simpa using hm'
    have hlog : loginAsCustomer customers mobileNumber currentUser
        = (true, some { role := UserRole.CUSTOMER, id := some c.id }) := by
      unfold loginAsCustomer
      rw [hfind]
    refine ⟨?_, ?_, ?_⟩
    · rw [hlog]
      simp only [true_iff]
      exact ⟨c, hc, hm⟩
    · intro c' hc'
      injection hc' with hcc
      subst hcc
      exact hlog
    · intro hnone
      exact absurd hnone (by simp)
  | none =>
    have hall := List.find?_eq_none.mp hfind
    have hlog : loginAsCustomer customers mobileNumber currentUser
        = (false, currentUser) := by
      unfold loginAsCustomer
      rw [hfind]
    refine ⟨?_, ?_, ?_⟩
    · rw [hlog]
      constructor
      · intro hfalse
        exact absurd hfalse (by simp)
      · rintro ⟨c, hc, hm⟩
        exact absurd (by simpa using hm) (hall c hc)
    · intro c hc
      exact absurd hc (by simp)
    · intro _
      exact hlog

/-- Counterexample to claim C4 as stated: the measurement grid rendered by
`OrderCard` also contains the `numPockets` cell (and likewise `numSuits` and
`clothLengthGiven`), which is not one of the ten body-measurement fields, so
the rendered field set is not exactly the ten body-measurement fields. -/
theorem orderCardGrid_beyond_bodyKeys :
    "numPockets" ∈ (orderCardGridEntries demoMeasurements).map Prod.fst
    ∧ "numPockets" ∉ bodyMeasurementKeys
    ∧ (orderCardGridEntries demoMeasurements).map Prod.fst ≠ bodyMeasurementKeys := by
  decide

/-- Claim C4 as amended: for every measurements value, the grid both views
render consists of every `Measurements` field except the metadata fields
`suitType`, `deliveryDate`, `measurementDate` and `specialNotes` — i.e. the
ten body-measurement fields plus `numPockets`, `numSuits` and
`clothLengthGiven` — and `OrderCard` and `CustomerOrderView` produce the
identical grid from their identical exclusion lists. -/
theorem gridEntries_amended (m : Measurements) :
    (orderCardGridEntries m).map Prod.fst
        = bodyMeasurementKeys ++ ["numPockets", "numSuits", "clothLengthGiven"]
    ∧ orderCardGridEntries m = customerOrderViewGridEntries m := by
  exact ⟨rfl, rfl⟩

end StitchFlow
